import Mathlib

/-!
Verification of the AEAD-2022 UDP cipher layer (`src/v2/udp/mod.rs`).

The facade (`UdpCipher`) and the dispatcher (`CipherVariant`) are embedded
directly from the source.  The crate-root types `CipherKind` and
`CipherCategory` and the three concrete AEAD primitive modules
(`aes_gcm`, `chacha20_poly1305`, `chacha8_poly1305`) are not part of the
given source tree, so they are modelled from the specification: the
primitives are opaque collaborators whose contract (sub-key derivation per
packet, in-place seal/open with a 16-byte tag, construction-time failure on
a wrong-length key) is what matters here, not their internal cryptography.
Rust panics (`unreachable!`, wrong-length key assertions) are modelled as
`Except.error`; the compile-time feature `v2-extra` is a `Bool` parameter.
Byte buffers are `List Nat` with elements `< 256`; the 64-bit session
identifier is a `Nat`.
-/

/-- Modelled from the spec: the crate-root `CipherKind` enumeration, which is
not under `src/`.  It recognizes the four AEAD-2022 UDP algorithm identifiers
(§6); `other n` stands for any identifier that is not one of them. -/
inductive CipherKind where
  | AEAD2022_BLAKE3_AES_128_GCM
  | AEAD2022_BLAKE3_AES_256_GCM
  | AEAD2022_BLAKE3_CHACHA20_POLY1305
  | AEAD2022_BLAKE3_CHACHA8_POLY1305
  | other (id : Nat)
deriving DecidableEq, Repr

/-- Modelled from the spec: the crate-root `CipherCategory` enumeration,
which is not under `src/`. -/
inductive CipherCategory where
  | None
  | Stream
  | Aead
  | Aead2022
deriving DecidableEq, Repr

/-- Key length in bytes for each recognized algorithm (§6): 16 and 32 bytes
for the two GCM variants, 32 bytes for both stream-cipher variants. -/
def CipherKind.keyLen : CipherKind → Nat
  | .AEAD2022_BLAKE3_AES_128_GCM => 16
  | .AEAD2022_BLAKE3_AES_256_GCM => 32
  | .AEAD2022_BLAKE3_CHACHA20_POLY1305 => 32
  | .AEAD2022_BLAKE3_CHACHA8_POLY1305 => 32
  | .other _ => 0

/-- Salt length matches each algorithm's key length (§6). -/
def CipherKind.saltLen (k : CipherKind) : Nat := k.keyLen

/-- Tag length: 16 bytes for all four algorithms (§6). -/
def tagLen : Nat := 16

/-- Whether `k` is a recognized AEAD-2022 UDP algorithm under build flag
`v2x` (= feature `v2-extra`): the reduced-round stream variant is available
only when the flag is enabled (§6, §4.2). -/
def CipherKind.isAead2022Udp (v2x : Bool) : CipherKind → Bool
  | .AEAD2022_BLAKE3_AES_128_GCM => true
  | .AEAD2022_BLAKE3_AES_256_GCM => true
  | .AEAD2022_BLAKE3_CHACHA20_POLY1305 => true
  | .AEAD2022_BLAKE3_CHACHA8_POLY1305 => v2x
  | .other _ => false

/-- Fold a byte list into an accumulator, the executable stand-in for the
opaque cryptographic keyed hash of the primitives' contract (§4.3). -/
def absorb (s : Nat) (l : List Nat) : Nat :=
  l.foldl (fun a b => (a * 131 + b + 17) % 65536) s

/-- Little-endian byte encoding of the 64-bit session identifier. -/
def u64Bytes (s : Nat) : List Nat :=
  (List.range 8).map (fun i => s / 256 ^ i % 256)

/-- Modelled from the spec: the per-packet sub-key derivation (§4.3) of the
primitive modules, which are not under `src/`.  A keyed hash over
(master key, salt) mixing in the session identifier exactly when the
algorithm family mandates it, producing a `len`-byte sub-key. -/
def kdf (masterKey salt : List Nat) (sessionId : Option Nat) (len : Nat) : List Nat :=
  let seed := absorb 9 (masterKey ++ salt ++ sessionId.elim [] u64Bytes)
  (List.range len).map (fun i => absorb seed [i] % 256)

/-- Keystream byte `i` derived from a sub-key, always `< 256`. -/
def keyByte (subKey : List Nat) (i : Nat) : Nat :=
  absorb (absorb 3 subKey) [i] % 256

/-- Encrypt a byte list with the keystream, starting at position `i`. -/
def encFrom (subKey : List Nat) (i : Nat) : List Nat → List Nat
  | [] => []
  | p :: rest => (p + keyByte subKey i) % 256 :: encFrom subKey (i + 1) rest

/-- Decrypt a byte list with the keystream, starting at position `i`. -/
def decFrom (subKey : List Nat) (i : Nat) : List Nat → List Nat
  | [] => []
  | c :: rest => (c + 256 - keyByte subKey i) % 256 :: decFrom subKey (i + 1) rest

/-- 16-byte authentication tag over (sub-key, ciphertext), the executable
stand-in for the opaque polynomial authenticator (§6). -/
def tagFn (subKey ct : List Nat) : List Nat :=
  (List.range tagLen).map (fun i => absorb (absorb (i + 5) subKey) ct % 256)

/-- Modelled from the spec: the in-place AEAD seal of the primitive modules
(§4.1, §6), not under `src/`.  The buffer's tail reserves exactly the tag
length; the plaintext prefix is encrypted in place and the tag written over
the tail. -/
def sealBuf (subKey buffer : List Nat) : List Nat :=
  let n := buffer.length - tagLen
  let ct := encFrom subKey 0 (buffer.take n)
  ct ++ tagFn subKey ct

/-- Modelled from the spec: the in-place AEAD open/verify of the primitive
modules (§4.1, §6), not under `src/`.  Returns `false` on any tag mismatch,
leaving the buffer's contents unspecified (here: unchanged); on success the
ciphertext prefix is overwritten with the plaintext. -/
def openBuf (subKey buffer : List Nat) : Bool × List Nat :=
  let n := buffer.length - tagLen
  let ct := buffer.take n
  let t := buffer.drop n
  if t = tagFn subKey ct then (true, decFrom subKey 0 ct ++ t)
  else (false, buffer)

/-- Modelled from the spec: the `aes_gcm` module (block-cipher GCM variants),
not under `src/`.  Holds kind, master key and session identifier; the
session identifier is mixed into the per-packet sub-key derivation (§4.3). -/
structure AesGcmCipher where
  kind : CipherKind
  key : List Nat
  session_id : Nat
deriving DecidableEq, Repr

/-- Modelled from the spec: `AesGcmCipher::new` fails (construction-time
fatal, here `none`) if the key length does not match the algorithm's
required key size (§4.1, §7). -/
def AesGcmCipher.new (kind : CipherKind) (key : List Nat) (session_id : Nat) :
    Option AesGcmCipher :=
  if key.length = kind.keyLen then some ⟨kind, key, session_id⟩ else none

/-- Per-packet seal of the GCM variants: sub-key from
(master key, salt, session identifier). -/
def AesGcmCipher.encrypt_packet (c : AesGcmCipher) (salt buffer : List Nat) : List Nat :=
  sealBuf (kdf c.key salt (some c.session_id) c.kind.keyLen) buffer

/-- Per-packet open of the GCM variants. -/
def AesGcmCipher.decrypt_packet (c : AesGcmCipher) (salt buffer : List Nat) :
    Bool × List Nat :=
  openBuf (kdf c.key salt (some c.session_id) c.kind.keyLen) buffer

/-- Modelled from the spec: the `chacha20_poly1305` module (standard
stream-cipher variant), not under `src/`.  Holds the master key only; the
session identifier is not an input anywhere (§4.3). -/
structure ChaCha20Poly1305Cipher where
  key : List Nat
deriving DecidableEq, Repr

/-- Modelled from the spec: construction fails on a wrong-length key
(required length 32, §6). -/
def ChaCha20Poly1305Cipher.new (key : List Nat) : Option ChaCha20Poly1305Cipher :=
  if key.length = 32 then some ⟨key⟩ else none

/-- Per-packet seal of the standard stream-cipher variant: sub-key from
(master key, salt) alone (§4.3). -/
def ChaCha20Poly1305Cipher.encrypt_packet (c : ChaCha20Poly1305Cipher)
    (salt buffer : List Nat) : List Nat :=
  sealBuf (kdf c.key salt none 32) buffer

/-- Per-packet open of the standard stream-cipher variant. -/
def ChaCha20Poly1305Cipher.decrypt_packet (c : ChaCha20Poly1305Cipher)
    (salt buffer : List Nat) : Bool × List Nat :=
  openBuf (kdf c.key salt none 32) buffer

/-- Modelled from the spec: the `chacha8_poly1305` module (reduced-round
stream-cipher variant, feature `v2-extra` only), not under `src/`. -/
structure ChaCha8Poly1305Cipher where
  key : List Nat
deriving DecidableEq, Repr

/-- Modelled from the spec: construction fails on a wrong-length key
(required length 32, §6). -/
def ChaCha8Poly1305Cipher.new (key : List Nat) : Option ChaCha8Poly1305Cipher :=
  if key.length = 32 then some ⟨key⟩ else none

/-- Per-packet seal of the reduced-round stream-cipher variant: sub-key from
(master key, salt) alone (§4.3). -/
def ChaCha8Poly1305Cipher.encrypt_packet (c : ChaCha8Poly1305Cipher)
    (salt buffer : List Nat) : List Nat :=
  sealBuf (kdf c.key salt none 32) buffer

/-- Per-packet open of the reduced-round stream-cipher variant. -/
def ChaCha8Poly1305Cipher.decrypt_packet (c : ChaCha8Poly1305Cipher)
    (salt buffer : List Nat) : Bool × List Nat :=
  openBuf (kdf c.key salt none 32) buffer

/-- Construction-time fatal errors (`src/v2/udp/mod.rs:34` models the
`unreachable!` panic; the wrong-key-length panic lives in the primitive
constructors). -/
inductive CipherError where
  | notAead2022 (kind : CipherKind)
  | badKeyLength (kind : CipherKind) (len : Nat)
deriving DecidableEq, Repr

/-- `CipherVariant` (`src/v2/udp/mod.rs:14-19`): closed tagged union over
the concrete ciphers.  The `ChaCha8Poly1305` arm is `cfg`-gated in the
source; here the constructor exists and `CipherVariant.new` refuses to build
it when the flag is off. -/
inductive CipherVariant where
  | AesGcm (c : AesGcmCipher)
  | ChaCha20Poly1305 (c : ChaCha20Poly1305Cipher)
  | ChaCha8Poly1305 (c : ChaCha8Poly1305Cipher)
deriving DecidableEq, Repr

/-- `CipherVariant::new` (`src/v2/udp/mod.rs:22-36`), with the feature flag
`v2x` explicit and panics as errors: the two GCM kinds build an `AesGcm`
variant, the standard stream kind a `ChaCha20Poly1305` variant, the
reduced-round kind a `ChaCha8Poly1305` variant only when `v2x` is on, and
everything else hits the `unreachable!("Cipher {} is not an AEAD 2022
cipher")` arm. -/
def CipherVariant.new (v2x : Bool) (kind : CipherKind) (key : List Nat)
    (session_id : Nat) : Except CipherError CipherVariant :=
  match kind with
  | .AEAD2022_BLAKE3_AES_128_GCM | .AEAD2022_BLAKE3_AES_256_GCM =>
    match AesGcmCipher.new kind key session_id with
    | some c => .ok (.AesGcm c)
    | none => .error (.badKeyLength kind key.length)
  | .AEAD2022_BLAKE3_CHACHA20_POLY1305 =>
    match ChaCha20Poly1305Cipher.new key with
    | some c => .ok (.ChaCha20Poly1305 c)
    | none => .error (.badKeyLength kind key.length)
  | .AEAD2022_BLAKE3_CHACHA8_POLY1305 =>
    if v2x then
      match ChaCha8Poly1305Cipher.new key with
      | some c => .ok (.ChaCha8Poly1305 c)
      | none => .error (.badKeyLength kind key.length)
    else .error (.notAead2022 kind)
  | .other n => .error (.notAead2022 (.other n))

/-- `CipherVariant::encrypt_packet` (`src/v2/udp/mod.rs:38-45`): forward to
the active variant. -/
def CipherVariant.encrypt_packet (v : CipherVariant) (salt buffer : List Nat) :
    List Nat :=
  match v with
  | .AesGcm c => c.encrypt_packet salt buffer
  | .ChaCha20Poly1305 c => c.encrypt_packet salt buffer
  | .ChaCha8Poly1305 c => c.encrypt_packet salt buffer

/-- `CipherVariant::decrypt_packet` (`src/v2/udp/mod.rs:47-54`): forward to
the active variant. -/
def CipherVariant.decrypt_packet (v : CipherVariant) (salt buffer : List Nat) :
    Bool × List Nat :=
  match v with
  | .AesGcm c => c.decrypt_packet salt buffer
  | .ChaCha20Poly1305 c => c.decrypt_packet salt buffer
  | .ChaCha8Poly1305 c => c.decrypt_packet salt buffer

/-- `UdpCipher` (`src/v2/udp/mod.rs:58-61`). -/
structure UdpCipher where
  cipher : CipherVariant
  kind : CipherKind
deriving DecidableEq, Repr

/-- `UdpCipher::new` (`src/v2/udp/mod.rs:65-70`): build the variant and
record the kind. -/
def UdpCipher.new (v2x : Bool) (kind : CipherKind) (key : List Nat)
    (session_id : Nat) : Except CipherError UdpCipher :=
  match CipherVariant.new v2x kind key session_id with
  | .ok c => .ok ⟨c, kind⟩
  | .error e => .error e

/-- `UdpCipher::category` (`src/v2/udp/mod.rs:80-82`). -/
def UdpCipher.category (_c : UdpCipher) : CipherCategory :=
  CipherCategory.Aead2022

/-- `UdpCipher::encrypt_packet` (`src/v2/udp/mod.rs:85-87`). -/
def UdpCipher.encrypt_packet (c : UdpCipher) (salt buffer : List Nat) : List Nat :=
  c.cipher.encrypt_packet salt buffer

/-- `UdpCipher::decrypt_packet` (`src/v2/udp/mod.rs:90-92`). -/
def UdpCipher.decrypt_packet (c : UdpCipher) (salt buffer : List Nat) :
    Bool × List Nat :=
  c.cipher.decrypt_packet salt buffer

/-- One packet operation on a `UdpCipher` facade. -/
inductive Op where
  | enc (salt buffer : List Nat)
  | dec (salt buffer : List Nat)

/-- One step of a packet-operation trace.  The source methods take `&self`
(`src/v2/udp/mod.rs:85,90`) and the structs hold no interior mutability, so
a step returns the facade unchanged next to the operation's result. -/
def stepOp (c : UdpCipher) : Op → UdpCipher × (Bool × List Nat)
  | .enc salt buffer => (c, (true, c.encrypt_packet salt buffer))
  | .dec salt buffer => (c, c.decrypt_packet salt buffer)

/-- The facade state after running a whole trace of packet operations. -/
def runTrace (c : UdpCipher) (ops : List Op) : UdpCipher :=
  ops.foldl (fun st op => (stepOp st op).1) c

/-- The sub-key a variant derives for a given salt (§4.3): the GCM variants
mix the session identifier into the derivation, the stream-cipher variants
do not. -/
def subKeyOf (v : CipherVariant) (salt : List Nat) : List Nat :=
  match v with
  | .AesGcm c => kdf c.key salt (some c.session_id) c.kind.keyLen
  | .ChaCha20Poly1305 c => kdf c.key salt none 32
  | .ChaCha8Poly1305 c => kdf c.key salt none 32

/-- Whether a construction attempt ended in a construction-time fatal
error. -/
def isFatal : Except CipherError UdpCipher → Bool
  | .error _ => true
  | .ok _ => false

/-- Consistency between a facade's stored `kind` and its active variant:
each variant is active exactly for the kinds that select it in
`CipherVariant::new` (`src/v2/udp/mod.rs:22-36`). -/
def kindVariantConsistent (c : UdpCipher) : Prop :=
  ((∃ a, c.cipher = CipherVariant.AesGcm a) ↔
      (c.kind = CipherKind.AEAD2022_BLAKE3_AES_128_GCM ∨
       c.kind = CipherKind.AEAD2022_BLAKE3_AES_256_GCM)) ∧
  ((∃ a, c.cipher = CipherVariant.ChaCha20Poly1305 a) ↔
      c.kind = CipherKind.AEAD2022_BLAKE3_CHACHA20_POLY1305) ∧
  ((∃ a, c.cipher = CipherVariant.ChaCha8Poly1305 a) ↔
      c.kind = CipherKind.AEAD2022_BLAKE3_CHACHA8_POLY1305)

/-- A concrete facade: standard stream-cipher variant, all-zero 32-byte
master key (used to instantiate theorems with hypotheses). -/
def sampleCipher : UdpCipher :=
  ⟨CipherVariant.ChaCha20Poly1305 ⟨List.replicate 32 0⟩,
   CipherKind.AEAD2022_BLAKE3_CHACHA20_POLY1305⟩

/-- The facade of the spec's end-to-end example: 256-bit GCM variant,
all-zero 32-byte master key, session identifier 0. -/
def pingCipher : UdpCipher :=
  ⟨CipherVariant.AesGcm
    ⟨CipherKind.AEAD2022_BLAKE3_AES_256_GCM, List.replicate 32 0, 0⟩,
   CipherKind.AEAD2022_BLAKE3_AES_256_GCM⟩

/-- The end-to-end example's salt: 32 bytes of value 1. -/
def pingSalt : List Nat := List.replicate 32 1

/-- The end-to-end example's buffer: plaintext `"ping"` followed by the
16 reserved tag bytes. -/
def pingBuf : List Nat := [112, 105, 110, 103] ++ List.replicate 16 0

/-- The encrypted end-to-end example buffer. -/
def pingEnc : List Nat := pingCipher.encrypt_packet pingSalt pingBuf

/-- The encrypted example buffer with its last (tag) byte flipped. -/
def pingTampered : List Nat :=
  pingEnc.dropLast ++ [Nat.xor (pingEnc.getLastD 0) 255]

theorem keyByte_lt (subKey : List Nat) (i : Nat) : keyByte subKey i < 256 := by
  unfold keyByte
  omega

theorem encFrom_length (subKey : List Nat) (i : Nat) (l : List Nat) :
    (encFrom subKey i l).length = l.length := by
  induction l generalizing i with
  | nil => rfl
  | cons p rest ih => simp [encFrom, ih]

theorem decFrom_encFrom (subKey : List Nat) (i : Nat) (l : List Nat)
    (h : ∀ b ∈ l, b < 256) : decFrom subKey i (encFrom subKey i l) = l := by
  induction l generalizing i with
  | nil => rfl
  | cons p rest ih =>
    have hp : p < 256 := h p (by simp)
    have hk : keyByte subKey i < 256 := keyByte_lt subKey i
    simp only [encFrom, decFrom]
    refine congrArg₂ List.cons ?_ (ih (i + 1) fun b hb => h b (List.mem_cons_of_mem _ hb))
    omega

theorem tagFn_length (subKey ct : List Nat) : (tagFn subKey ct).length = tagLen := by
  simp [tagFn]

theorem openBuf_sealBuf (subKey buffer : List Nat)
    (hb : ∀ b ∈ buffer, b < 256) :
    openBuf subKey (sealBuf subKey buffer) =
      (true, buffer.take (buffer.length - tagLen) ++
        tagFn subKey (encFrom subKey 0 (buffer.take (buffer.length - tagLen)))) := by
  have hpt : ∀ b ∈ buffer.take (buffer.length - tagLen), b < 256 :=
    fun b hbm => hb b (List.take_subset _ _ hbm)
  simp only [sealBuf, openBuf]
  have hlen : (encFrom subKey 0 (buffer.take (buffer.length - tagLen)) ++
      tagFn subKey (encFrom subKey 0 (buffer.take (buffer.length - tagLen)))).length - tagLen =
      (encFrom subKey 0 (buffer.take (buffer.length - tagLen))).length := by
    simp [List.length_append, tagFn_length]
  rw [hlen, List.take_left, List.drop_left, if_pos rfl,
    decFrom_encFrom _ _ _ hpt]

theorem variant_encrypt_eq (v : CipherVariant) (salt buffer : List Nat) :
    v.encrypt_packet salt buffer = sealBuf (subKeyOf v salt) buffer := by
  cases v <;> rfl

theorem variant_decrypt_eq (v : CipherVariant) (salt buffer : List Nat) :
    v.decrypt_packet salt buffer = openBuf (subKeyOf v salt) buffer := by
  cases v <;> rfl

theorem stepOp_fst (c : UdpCipher) (op : Op) : (stepOp c op).1 = c := by
  cases op <;> rfl

theorem runTrace_eq (c : UdpCipher) (ops : List Op) : runTrace c ops = c := by
  induction ops with
  | nil => rfl
  | cons op rest ih =>
    show runTrace (stepOp c op).1 rest = c
    rw [stepOp_fst]
    exact ih

theorem new_ok_inv (v2x : Bool) (kind : CipherKind) (key : List Nat) (sid : Nat)
    (c : UdpCipher) (hc : UdpCipher.new v2x kind key sid = Except.ok c) :
    c.kind = kind ∧ CipherVariant.new v2x kind key sid = Except.ok c.cipher := by
  cases hv : CipherVariant.new v2x kind key sid with
  | ok v =>
    simp only [UdpCipher.new, hv] at hc
    injection hc with h
    rw [← h]
    exact ⟨rfl, rfl⟩
  | error e =>
    simp only [UdpCipher.new, hv] at hc
    exact absurd hc (by simp)

/-- Claim C1: for every supported algorithm kind, key of the required
length, salt of the required length and session identifier, encrypting a
byte buffer with `encrypt_packet` and then calling `decrypt_packet` on the
result (same cipher, same salt) returns `true` and restores the plaintext
prefix of the buffer to its original bytes. -/
theorem udp_encrypt_decrypt_roundtrip (v2x : Bool) (kind : CipherKind)
    (key salt buffer : List Nat) (sid : Nat) (c : UdpCipher)
    (hc : UdpCipher.new v2x kind key sid = Except.ok c)
    (hsalt : salt.length = kind.saltLen)
    (hbytes : ∀ b ∈ buffer, b < 256) :
    (c.decrypt_packet salt (c.encrypt_packet salt buffer)).1 = true ∧
    (c.decrypt_packet salt (c.encrypt_packet salt buffer)).2.take
        (buffer.length - tagLen) =
      buffer.take (buffer.length - tagLen) := by
  rw [UdpCipher.encrypt_packet, UdpCipher.decrypt_packet, variant_encrypt_eq,
    variant_decrypt_eq, openBuf_sealBuf _ _ hbytes]
  refine ⟨rfl, ?_⟩
  have hplen : (buffer.take (buffer.length - tagLen)).length =
      buffer.length - tagLen := by
    rw [List.length_take]
    omega
  exact List.take_left' hplen

/-- Witness for C1 at a concrete input: standard stream-cipher variant,
all-zero 32-byte key, all-zero 32-byte salt, 20-byte buffer of value 7. -/
theorem udp_encrypt_decrypt_roundtrip_witness :
    (sampleCipher.decrypt_packet (List.replicate 32 0)
        (sampleCipher.encrypt_packet (List.replicate 32 0)
          (List.replicate 20 7))).1 = true ∧
    (sampleCipher.decrypt_packet (List.replicate 32 0)
        (sampleCipher.encrypt_packet (List.replicate 32 0)
          (List.replicate 20 7))).2.take
        ((List.replicate 20 7 : List Nat).length - tagLen) =
      (List.replicate 20 7 : List Nat).take
        ((List.replicate 20 7 : List Nat).length - tagLen) :=
  udp_encrypt_decrypt_roundtrip true
    CipherKind.AEAD2022_BLAKE3_CHACHA20_POLY1305 (List.replicate 32 0)
    (List.replicate 32 0) (List.replicate 20 7) 0 sampleCipher rfl rfl
    (by decide)

/-- Claim C2: an unrecognized algorithm identifier, or a recognized one with
a key of the wrong length, makes `UdpCipher::new` fail with a
construction-time fatal error, before any packet operation exists. -/
theorem udp_new_fatal_on_bad_input (v2x : Bool) (kind : CipherKind)
    (key : List Nat) (sid : Nat)
    (h : kind.isAead2022Udp v2x = false ∨ key.length ≠ kind.keyLen) :
    isFatal (UdpCipher.new v2x kind key sid) = true := by
  cases kind with
  | AEAD2022_BLAKE3_AES_128_GCM =>
    rcases h with h | h
    · simp [CipherKind.isAead2022Udp] at h
    · simp only [CipherKind.keyLen] at h
      simp [UdpCipher.new, CipherVariant.new, AesGcmCipher.new,
        CipherKind.keyLen, h, isFatal]
  | AEAD2022_BLAKE3_AES_256_GCM =>
    rcases h with h | h
    · simp [CipherKind.isAead2022Udp] at h
    · simp only [CipherKind.keyLen] at h
      simp [UdpCipher.new, CipherVariant.new, AesGcmCipher.new,
        CipherKind.keyLen, h, isFatal]
  | AEAD2022_BLAKE3_CHACHA20_POLY1305 =>
    rcases h with h | h
    · simp [CipherKind.isAead2022Udp] at h
    · simp only [CipherKind.keyLen] at h
      simp [UdpCipher.new, CipherVariant.new, ChaCha20Poly1305Cipher.new, h,
        isFatal]
  | AEAD2022_BLAKE3_CHACHA8_POLY1305 =>
    cases v2x with
    | false => simp [UdpCipher.new, CipherVariant.new, isFatal]
    | true =>
      rcases h with h | h
      · simp [CipherKind.isAead2022Udp] at h
      · simp only [CipherKind.keyLen] at h
        simp [UdpCipher.new, CipherVariant.new, ChaCha8Poly1305Cipher.new, h,
          isFatal]
  | other n => simp [UdpCipher.new, CipherVariant.new, isFatal]

/-- Witness for C2 at a concrete input: the unrecognized identifier 99 with
an empty key fails at construction. -/
theorem udp_new_fatal_on_bad_input_witness :
    isFatal (UdpCipher.new true (CipherKind.other 99) [] 0) = true :=
  udp_new_fatal_on_bad_input true (CipherKind.other 99) [] 0 (Or.inl rfl)

/-- Claim C3: for the stream-cipher-based variants, the session identifier
has no influence: two facades built with the same kind and key but any two
session identifiers produce identical `encrypt_packet` outputs and identical
`decrypt_packet` results on every (salt, buffer) input.  This holds because
`CipherVariant::new` never passes `session_id` to the stream-cipher
constructors (`src/v2/udp/mod.rs:27-33`). -/
theorem stream_variants_ignore_session_id (v2x : Bool) (k : CipherKind)
    (key salt buffer : List Nat) (sid1 sid2 : Nat) (c1 c2 : UdpCipher)
    (hk : k = CipherKind.AEAD2022_BLAKE3_CHACHA20_POLY1305 ∨
      k = CipherKind.AEAD2022_BLAKE3_CHACHA8_POLY1305)
    (h1 : UdpCipher.new v2x k key sid1 = Except.ok c1)
    (h2 : UdpCipher.new v2x k key sid2 = Except.ok c2) :
    c1.encrypt_packet salt buffer = c2.encrypt_packet salt buffer ∧
    c1.decrypt_packet salt buffer = c2.decrypt_packet salt buffer := by
  have hnew : UdpCipher.new v2x k key sid1 = UdpCipher.new v2x k key sid2 := by
    rcases hk with rfl | rfl <;> rfl
  rw [h1, h2] at hnew
  injection hnew with h
  rw [h]
  exact ⟨rfl, rfl⟩

/-- Witness for C3 at a concrete input: standard stream-cipher variant,
all-zero 32-byte key, session identifiers 0 and 1. -/
theorem stream_variants_ignore_session_id_witness :
    sampleCipher.encrypt_packet [] [] = sampleCipher.encrypt_packet [] [] ∧
    sampleCipher.decrypt_packet [] [] = sampleCipher.decrypt_packet [] [] :=
  stream_variants_ignore_session_id true
    CipherKind.AEAD2022_BLAKE3_CHACHA20_POLY1305 (List.replicate 32 0) [] []
    0 1 sampleCipher sampleCipher (Or.inl rfl) rfl rfl

/-- Claim C4: no packet operation mutates the cipher: along any trace of
`encrypt_packet`/`decrypt_packet` calls (including failing decrypts) the
facade, its kind and its variant are unchanged, so every later call behaves
as it would have without the earlier ones. -/
theorem packet_ops_stateless (c : UdpCipher) (ops : List Op) :
    runTrace c ops = c ∧
    (runTrace c ops).kind = c.kind ∧
    (runTrace c ops).cipher = c.cipher ∧
    ∀ op, stepOp (runTrace c ops) op = stepOp c op := by
  rw [runTrace_eq]
  exact ⟨rfl, rfl, rfl, fun _ => rfl⟩

/-- Claim C5: with the `v2-extra` feature off, requesting the reduced-round
stream-cipher identifier takes the very same `unreachable!("Cipher {} is not
an AEAD 2022 cipher")` arm — modelled as the `CipherError.notAead2022`
constructor — that an actually-unknown identifier takes, not a distinct
error path. -/
theorem disabled_chacha8_same_error_as_unknown (key : List Nat) (sid n : Nat) :
    UdpCipher.new false CipherKind.AEAD2022_BLAKE3_CHACHA8_POLY1305 key sid =
      Except.error
        (CipherError.notAead2022 CipherKind.AEAD2022_BLAKE3_CHACHA8_POLY1305) ∧
    UdpCipher.new false (CipherKind.other n) key sid =
      Except.error (CipherError.notAead2022 (CipherKind.other n)) :=
  ⟨rfl, rfl⟩

set_option maxRecDepth 100000 in
/-- Claim C6: the spec's end-to-end example: all-zero 32-byte master key,
256-bit GCM variant, session identifier 0, salt of 32 bytes of value 1,
plaintext `"ping"` — encrypt fills the 20-byte buffer (4 ciphertext bytes
plus 16-byte tag), decrypt with the same salt returns `true` and restores
`"ping"`, and decrypt with the last tag byte flipped returns `false`. -/
theorem ping_end_to_end :
    UdpCipher.new true CipherKind.AEAD2022_BLAKE3_AES_256_GCM
        (List.replicate 32 0) 0 = Except.ok pingCipher ∧
    pingEnc.length = 20 ∧
    (pingCipher.decrypt_packet pingSalt pingEnc).1 = true ∧
    (pingCipher.decrypt_packet pingSalt pingEnc).2.take 4 =
      [112, 105, 110, 103] ∧
    (pingCipher.decrypt_packet pingSalt pingTampered).1 = false := by
  refine ⟨rfl, ?_, ?_, ?_, ?_⟩ <;> decide

/-- Claim C7: for every facade, whichever algorithm is active, `category`
returns the datagram-AEAD tag `CipherCategory.Aead2022`, and the value is
constant across any trace of packet operations. -/
theorem category_always_aead2022 (c : UdpCipher) (ops : List Op) :
    c.category = CipherCategory.Aead2022 ∧
    (runTrace c ops).category = CipherCategory.Aead2022 :=
  ⟨rfl, rfl⟩

/-- Claim C8: `kind` is a pure accessor returning exactly the identifier
passed to `UdpCipher::new`, and no trace of packet operations changes it. -/
theorem kind_pure_accessor (v2x : Bool) (kind : CipherKind) (key : List Nat)
    (sid : Nat) (c : UdpCipher) (ops : List Op)
    (hc : UdpCipher.new v2x kind key sid = Except.ok c) :
    c.kind = kind ∧ (runTrace c ops).kind = kind := by
  have hk : c.kind = kind := (new_ok_inv v2x kind key sid c hc).1
  exact ⟨hk, by rw [runTrace_eq]; exact hk⟩

/-- Witness for C8 at a concrete input: standard stream-cipher variant with
an all-zero 32-byte key. -/
theorem kind_pure_accessor_witness :
    sampleCipher.kind = CipherKind.AEAD2022_BLAKE3_CHACHA20_POLY1305 ∧
    (runTrace sampleCipher []).kind =
      CipherKind.AEAD2022_BLAKE3_CHACHA20_POLY1305 :=
  kind_pure_accessor true CipherKind.AEAD2022_BLAKE3_CHACHA20_POLY1305
    (List.replicate 32 0) 0 sampleCipher [] rfl

/-- Claim C9: the facade is a pure dispatcher: `UdpCipher::encrypt_packet`
produces exactly what the active variant's `encrypt_packet` produces on the
identical salt and buffer, and `UdpCipher::decrypt_packet` returns exactly
the variant's `decrypt_packet` result, with no extra transformation. -/
theorem facade_forwards_to_variant (c : UdpCipher) (salt buffer : List Nat) :
    c.encrypt_packet salt buffer = c.cipher.encrypt_packet salt buffer ∧
    c.decrypt_packet salt buffer = c.cipher.decrypt_packet salt buffer ∧
    (c.decrypt_packet salt buffer).1 = (c.cipher.decrypt_packet salt buffer).1 :=
  ⟨rfl, rfl, rfl⟩

/-- Claim C10: every successfully constructed facade satisfies — and every
trace of packet operations preserves — the consistency invariant between
its stored kind and its active variant. -/
theorem kind_variant_invariant (v2x : Bool) (kind : CipherKind)
    (key : List Nat) (sid : Nat) (c : UdpCipher) (ops : List Op)
    (hc : UdpCipher.new v2x kind key sid = Except.ok c) :
    kindVariantConsistent c ∧ kindVariantConsistent (runTrace c ops) := by
  obtain ⟨hk, hv⟩ := new_ok_inv v2x kind key sid c hc
  have h : kindVariantConsistent c := by
    cases kind with
    | AEAD2022_BLAKE3_AES_128_GCM =>
      cases ha : AesGcmCipher.new CipherKind.AEAD2022_BLAKE3_AES_128_GCM key sid with
      | some a =>
        simp only [CipherVariant.new, ha] at hv
        injection hv with hv2
        simp [kindVariantConsistent, ← hv2, hk]
      | none =>
        simp only [CipherVariant.new, ha] at hv
        exact absurd hv (by simp)
    | AEAD2022_BLAKE3_AES_256_GCM =>
      cases ha : AesGcmCipher.new CipherKind.AEAD2022_BLAKE3_AES_256_GCM key sid with
      | some a =>
        simp only [CipherVariant.new, ha] at hv
        injection hv with hv2
        simp [kindVariantConsistent, ← hv2, hk]
      | none =>
        simp only [CipherVariant.new, ha] at hv
        exact absurd hv (by simp)
    | AEAD2022_BLAKE3_CHACHA20_POLY1305 =>
      cases ha : ChaCha20Poly1305Cipher.new key with
      | some a =>
        simp only [CipherVariant.new, ha] at hv
        injection hv with hv2
        simp [kindVariantConsistent, ← hv2, hk]
      | none =>
        simp only [CipherVariant.new, ha] at hv
        exact absurd hv (by simp)
    | AEAD2022_BLAKE3_CHACHA8_POLY1305 =>
      cases v2x with
      | false =>
        simp only [CipherVariant.new] at hv
        exact absurd hv (by simp)
      | true =>
        cases ha : ChaCha8Poly1305Cipher.new key with
        | some a =>
          simp only [CipherVariant.new, ha, if_true] at hv
          injection hv with hv2
          simp [kindVariantConsistent, ← hv2, hk]
        | none =>
          simp only [CipherVariant.new, ha, if_true] at hv
          exact absurd hv (by simp)
    | other n =>
      simp only [CipherVariant.new] at hv
      exact absurd hv (by simp)
  exact ⟨h, by rw [runTrace_eq]; exact h⟩

/-- Witness for C10 at a concrete input: standard stream-cipher variant with
an all-zero 32-byte key. -/
theorem kind_variant_invariant_witness :
    kindVariantConsistent sampleCipher ∧
    kindVariantConsistent (runTrace sampleCipher []) :=
  kind_variant_invariant true CipherKind.AEAD2022_BLAKE3_CHACHA20_POLY1305
    (List.replicate 32 0) 0 sampleCipher [] rfl
